import Mathlib

/-!
Verification development for the tinyos3 pipe / socket / thread / process
subsystems.  Every definition is a shallow embedding of the corresponding C
function; machine `unsigned int` arithmetic is modelled as `Nat` with explicit
reduction modulo `2 ^ 32`.
-/

/-- Value range of a C `unsigned int`. -/
def U32 : Nat := 4294967296

/-! ## Pipe model (kernel_pipe.c)

`pipe_cb` carries the fields used by `pipe_read` / `pipe_write`:
nullable `reader` / `writer` FCB handles (modelled as `Bool`: `true` = the
handle is non-NULL), the byte buffer, the two ring indices and the `counter`
diagnostic.  The condition variables carry no state that the code reads, so
they are not part of the record.

Each call is modelled one atomic section at a time: under the global kernel
lock the code runs without interference from entry until it either returns or
reaches a `kernel_wait`.  `pipe_write_call` / `pipe_read_call` perform the
entry checks and the first test of the wait-loop condition; if the loop body
would run, the result is `blocked` (the call suspended at `kernel_wait`).
`pipe_write_resume` / `pipe_read_resume` are the code that runs once the
wait-loop condition is false (lines 84-109 resp. 135-155), which is also the
whole tail of a call that never blocks.
-/

/-- Pipe control block, fields as used by kernel_pipe.c. -/
structure pipe_cb where
  reader : Bool
  writer : Bool
  BUFFER : Nat → Nat
  w_position : Nat
  r_position : Nat
  counter : Nat

/-- The copy loop of `pipe_write` (kernel_pipe.c lines 88-98): while the ring
is not full and `written_data < n`, store `buf[written_data]` at `w_position`,
bump `counter`, `written_data` and `w_position`, wrapping the latter at
`PIPE_BUFFER_SIZE` (here `N`). -/
def writeLoop (N : Nat) (st : pipe_cb) (buf : Nat → Nat) (n written : Nat) :
    pipe_cb × Nat :=
  if h : (st.w_position + 1) % N ≠ st.r_position ∧ written < n then
    let st' : pipe_cb :=
      { st with
        BUFFER := fun i => if i = st.w_position then buf written else st.BUFFER i
        counter := st.counter + 1
        w_position := if st.w_position + 1 ≥ N then 0 else st.w_position + 1 }
    writeLoop N st' buf n (written + 1)
  else (st, written)
termination_by n - written
decreasing_by
  omega

/-- `pipe_write` after its wait loop has exited (kernel_pipe.c lines 84-109):
re-check the reader, run the copy loop, reset `counter` when it equals `n-1`
under the C unsigned comparison, broadcast `has_data`, return the count. -/
def pipe_write_resume (N : Nat) (st : pipe_cb) (buf : Nat → Nat) (n : Nat) :
    pipe_cb × Int :=
  if st.reader = false then (st, -1)
  else
    ({ (writeLoop N st buf n 0).1 with
        counter :=
          if (writeLoop N st buf n 0).1.counter % U32 = (n + (U32 - 1)) % U32
          then 0 else (writeLoop N st buf n 0).1.counter },
      ((writeLoop N st buf n 0).2 : Int))

/-- Outcome of one atomic section of `pipe_write`: a return, or suspension at
`kernel_wait(&has_space, SCHED_PIPE)`. -/
inductive WriteCall where
  | ret (st : pipe_cb) (val : Int)
  | blocked (st : pipe_cb)

/-- `pipe_write` from entry (kernel_pipe.c lines 66-109): NULL checks, then
the wait-loop test `(w+1) % N = r ∧ reader ≠ NULL`; if it holds the call
suspends, otherwise the tail `pipe_write_resume` runs. -/
def pipe_write_call (N : Nat) (st : pipe_cb) (buf : Nat → Nat) (n : Nat) :
    WriteCall :=
  if st.writer = false ∨ st.reader = false then .ret st (-1)
  else if (st.w_position + 1) % N = st.r_position ∧ st.reader = true then
    .blocked st
  else
    let p := pipe_write_resume N st buf n
    .ret p.1 p.2

/-- The copy loop of `pipe_read` (kernel_pipe.c lines 135-145): while the ring
is non-empty and `byte_num < n`, take the byte at `r_position`, bump `counter`,
`byte_num` and `r_position`, wrapping the latter at `N`. -/
def readLoop (N : Nat) (st : pipe_cb) (n byte_num : Nat) (acc : List Nat) :
    pipe_cb × List Nat :=
  if h : st.r_position ≠ st.w_position ∧ byte_num < n then
    let b := st.BUFFER st.r_position
    let st' : pipe_cb :=
      { st with
        counter := st.counter + 1
        r_position := if st.r_position + 1 ≥ N then 0 else st.r_position + 1 }
    readLoop N st' n (byte_num + 1) (acc ++ [b])
  else (st, acc)
termination_by n - byte_num
decreasing_by
  omega

/-- `pipe_read` after its wait loop has exited (kernel_pipe.c lines 135-155):
copy loop, `counter` reset when it equals `n`, broadcast `has_space`, return
the bytes read. -/
def pipe_read_resume (N : Nat) (st : pipe_cb) (n : Nat) : pipe_cb × List Nat :=
  ({ (readLoop N st n 0 []).1 with
      counter :=
        if (readLoop N st n 0 []).1.counter % U32 = n % U32
        then 0 else (readLoop N st n 0 []).1.counter },
    (readLoop N st n 0 []).2)

/-- Outcome of one atomic section of `pipe_read`: a return (with the bytes
copied out), or suspension at `kernel_wait(&has_data, SCHED_PIPE)`. -/
inductive ReadCall where
  | ret (st : pipe_cb) (out : List Nat) (val : Int)
  | blocked (st : pipe_cb)

/-- `pipe_read` from entry (kernel_pipe.c lines 113-155): NULL check on the
pipe and its reader, then the wait-loop test `w = r ∧ writer ≠ NULL`; if it
holds the call suspends, otherwise the tail `pipe_read_resume` runs. -/
def pipe_read_call (N : Nat) (st : pipe_cb) (n : Nat) : ReadCall :=
  if st.reader = false then .ret st [] (-1)
  else if st.w_position = st.r_position ∧ st.writer = true then .blocked st
  else
    let p := pipe_read_resume N st n
    .ret p.1 p.2 (p.2.length : Int)

/-- Return value of a write section, `none` when it suspended. -/
def WriteCall.retVal : WriteCall → Option Int
  | .ret _ v => some v
  | .blocked _ => none

/-- Return value of a read section, `none` when it suspended. -/
def ReadCall.retVal : ReadCall → Option Int
  | .ret _ _ v => some v
  | .blocked _ => none

/-- Number of readable bytes held by the ring under the one-slot-empty
convention. -/
def availData (N : Nat) (st : pipe_cb) : Nat :=
  (st.w_position + N - st.r_position) % N

/-- Pipe state as initialized by `sys_Pipe` (kernel_pipe.c lines 34-45): both
endpoints open, both indices and the counter zero; `xmalloc` leaves the byte
buffer arbitrary. -/
def pipe_init (B : Nat → Nat) : pipe_cb :=
  { reader := true, writer := true, BUFFER := B
    w_position := 0, r_position := 0, counter := 0 }

/-- States of a pipe reachable from creation by completed atomic sections of
`pipe_write` and `pipe_read`.  Under the global kernel lock these are exactly
the states visible at suspension points and at returns. -/
inductive PipeReach (N : Nat) : pipe_cb → Prop where
  | init (B : Nat → Nat) : PipeReach N (pipe_init B)
  | write (st : pipe_cb) (buf : Nat → Nat) (n : Nat) :
      PipeReach N st → PipeReach N (pipe_write_resume N st buf n).1
  | read (st : pipe_cb) (n : Nat) :
      PipeReach N st → PipeReach N (pipe_read_resume N st n).1


/-! ## Socket model (kernel_socket.h and the socket part of the kernel)

`socket_cb` carries the fields of `struct socket_control_block`: the `uint
refcount` (a `Nat` reduced modulo `2 ^ 32` at each update), the backing FCB
(as an identifier), the `socket_type`, the `port_t port` (an `Int`, since the
code compares it against `0` with `<`), and the union payload.  The C union
overlays the listener and peer payloads; no claim mixes them, so the record
carries the peer fields (`peer`, `read_pipe`, `write_pipe`) as nullable
identifiers and the listener queue is supplied to each model as an oracle.
-/

/-- Socket states, kernel_socket.h lines 9-13. -/
inductive socket_type where
  | SOCKET_LISTENER
  | SOCKET_UNBOUND
  | SOCKET_PEER
deriving DecidableEq, Repr

/-- Socket control block, kernel_socket.h lines 36-50. -/
structure socket_cb where
  refcount : Nat
  fcb : Nat
  type : socket_type
  port : Int
  peer : Option Nat
  read_pipe : Option Nat
  write_pipe : Option Nat
deriving DecidableEq, Repr

/-- `uint` increment of a refcount. -/
def incU32 (r : Nat) : Nat := (r + 1) % U32

/-- `uint` decrement of a refcount (`r--` wraps to `2^32 - 1` when `r = 0`). -/
def decU32 (r : Nat) : Nat := (r + (U32 - 1)) % U32

/-- `sys_Socket` (socket source lines 105-137): reject `port > MAX_PORT` or
`port < 0`, reserve one FCB (`reserveOk` is the oracle for `FCB_reserve`),
allocate the SCB with `refcount = 0`, `type = SOCKET_UNBOUND` and the given
port, and bind it to the FCB.  Returns the SCB, or `none` for `NOFILE`. -/
def sys_Socket_model (maxPort port : Int) (reserveOk : Bool) (fcbId : Nat) :
    Option socket_cb :=
  if port > maxPort ∨ port < 0 then none
  else if reserveOk = false then none
  else some
    { refcount := 0, fcb := fcbId, type := .SOCKET_UNBOUND, port := port
      peer := none, read_pipe := none, write_pipe := none }

/-- `sys_Listen` (socket source lines 140-176), for a call that reached a
valid FCB with stream object `s`.  `occupied` is the oracle for
`PORT_MAP[s.port] != NULL`.  Returns the C return value together with the
list of indices at which the code touches `PORT_MAP` (the read at line 158
and the store at line 167), in order. -/
def sys_Listen_model (maxPort : Int) (s : socket_cb) (occupied : Bool) :
    Int × List Int :=
  if s.port < 0 ∨ s.port > maxPort then (-1, [])
  else if occupied then (-1, [s.port])
  else if s.port = 0 then (-1, [s.port])
  else if s.type ≠ .SOCKET_UNBOUND then (-1, [s.port])
  else (0, [s.port, s.port])

/-- An index is a valid element of `socket_cb* PORT_MAP[MAX_PORT]`
(kernel_socket.h line 62) exactly when `0 ≤ i < MAX_PORT`. -/
def portMapInBounds (maxPort i : Int) : Prop := 0 ≤ i ∧ i < maxPort

/-- Result of `sys_Connect`: the return value, and the connector SCB after
the call (`none` when the call freed it). -/
structure ConnectResult where
  ret : Int
  scb : Option socket_cb
deriving DecidableEq, Repr

/-- `sys_Connect` (socket source lines 286-375), for a call that reached a
valid FCB with stream object `s`.  Oracles: `hasListener` for
`PORT_MAP[port] != NULL`; `closedDuringWait` for the one concurrent mutation
the wait admits (the owner running `socket_close` on the connector's fid
while it sleeps, which decrements the `uint` refcount once); `wait_ok` for
`kernel_timedwait` returning nonzero; `admitted` for the request's
`admitted` flag at wake.  The branch structure follows the source: the
timeout branch (lines 339-343) returns `-1` directly; otherwise the request
is freed, then if `refcount == 0` the SCB is freed, else the refcount is
decremented and `admitted` decides the return value. -/
def sys_Connect_model (maxPort : Int) (s : socket_cb) (port : Int)
    (hasListener closedDuringWait wait_ok admitted : Bool) : ConnectResult :=
  if s.type ≠ .SOCKET_UNBOUND then ⟨-1, some s⟩
  else if port < 0 ∨ port > maxPort then ⟨-1, some s⟩
  else if hasListener = false then ⟨-1, some s⟩
  else
    let s1 : socket_cb := { s with refcount := incU32 s.refcount }
    let sw : socket_cb :=
      if closedDuringWait then { s1 with refcount := decU32 s1.refcount } else s1
    if wait_ok = false then ⟨-1, some sw⟩
    else if sw.refcount = 0 then ⟨-1, none⟩
    else
      let s3 : socket_cb := { sw with refcount := decU32 sw.refcount }
      if admitted = false then ⟨-1, some s3⟩ else ⟨0, some s3⟩

/-- Result of `socket_close`: return value, whether the SCB was freed, its
final fields, the `PORT_MAP` slot nulled (for a listener), and the pipe ends
closed on the way. -/
structure SocketCloseResult where
  ret : Int
  freed : Bool
  scb : socket_cb
  portUnmapped : Option Int
  readerCloses : List Nat
  writerCloses : List Nat
deriving DecidableEq, Repr

/-- `socket_close` (socket source lines 51-91): a listener clears its
`PORT_MAP` slot and broadcasts `req_available`; a peer closes whichever pipes
it still holds and nulls them; then `refcount--` (a `uint` decrement) and the
SCB is freed exactly when the decremented value equals 0. -/
def socket_close_model (s : socket_cb) : SocketCloseResult :=
  let step :
      socket_cb × Option Int × List Nat × List Nat :=
    match s.type with
    | .SOCKET_LISTENER => (s, some s.port, [], [])
    | .SOCKET_PEER =>
        let rCl := match s.read_pipe with | some p => [p] | none => []
        let wCl := match s.write_pipe with | some p => [p] | none => []
        ({ s with read_pipe := none, write_pipe := none }, none, rCl, wCl)
    | .SOCKET_UNBOUND => (s, none, [], [])
  let rc := decU32 step.1.refcount
  { ret := 0, freed := decide (rc = 0)
    scb := { step.1 with refcount := rc }
    portUnmapped := step.2.1
    readerCloses := step.2.2.1, writerCloses := step.2.2.2 }

/-- Shutdown modes, tinyos.h. -/
inductive shutdown_mode where
  | SHUTDOWN_READ
  | SHUTDOWN_WRITE
  | SHUTDOWN_BOTH
deriving DecidableEq, Repr

/-- Result of `sys_ShutDown`: return value, the SCB after the call, and the
pipe ends it closed (`pipe_reader_close` / `pipe_writer_close` targets). -/
structure ShutDownResult where
  ret : Int
  scb : socket_cb
  readerCloses : List Nat
  writerCloses : List Nat
deriving DecidableEq, Repr

/-- `sys_ShutDown` (socket source lines 378-436), for a call that reached a
valid FCB with stream object `s`: `-1` unless `s` is a PEER; otherwise each
requested direction closes its pipe only when the pointer is non-NULL and
nulls it afterwards. -/
def sys_ShutDown_model (s : socket_cb) (how : shutdown_mode) : ShutDownResult :=
  if s.type ≠ .SOCKET_PEER then ⟨-1, s, [], []⟩
  else
    match how with
    | .SHUTDOWN_READ =>
        match s.read_pipe with
        | some p => ⟨0, { s with read_pipe := none }, [p], []⟩
        | none => ⟨0, s, [], []⟩
    | .SHUTDOWN_WRITE =>
        match s.write_pipe with
        | some p => ⟨0, { s with write_pipe := none }, [], [p]⟩
        | none => ⟨0, s, [], []⟩
    | .SHUTDOWN_BOTH =>
        let step :
            socket_cb × List Nat :=
          match s.read_pipe with
          | some p => ({ s with read_pipe := none }, [p])
          | none => (s, [])
        match step.1.write_pipe with
        | some p => ⟨0, { step.1 with write_pipe := none }, step.2, [p]⟩
        | none => ⟨0, step.1, step.2, []⟩

/-- Endpoint fields of a pipe allocated inside `sys_Accept` (socket source
lines 243-258): the two FCB handles and the two ring indices it initializes.
(`counter` is left uninitialized by that code and is not part of this
record.) -/
structure pipe_conn where
  writer : Nat
  reader : Nat
  w_position : Nat
  r_position : Nat
deriving DecidableEq, Repr

/-- The admission tail of `sys_Accept` (socket source lines 238-274), run on
the connector SCB `c` (the popped request's peer, already checked UNBOUND)
and the server SCB `s` freshly made by `sys_Socket`.  `cId`/`sId` are the two
SCBs' identities and `aId`/`bId` the addresses of the two `xmalloc`ed pipes.
Returns the updated connector, the updated server, the first pipe and the
second pipe. -/
def accept_wire (c s : socket_cb) (cId sId aId bId : Nat) :
    socket_cb × socket_cb × pipe_conn × pipe_conn :=
  let c1 : socket_cb := { c with type := .SOCKET_PEER }
  let s1 : socket_cb := { s with type := .SOCKET_PEER }
  let pipeA : pipe_conn := { writer := s.fcb, reader := c.fcb
                             w_position := 0, r_position := 0 }
  let pipeB : pipe_conn := { writer := c.fcb, reader := s.fcb
                             w_position := 0, r_position := 0 }
  let c2 : socket_cb := { c1 with peer := some sId, read_pipe := some aId
                                  write_pipe := some bId }
  let s2 : socket_cb := { s1 with peer := some cId, read_pipe := some bId
                                  write_pipe := some aId }
  (c2, s2, pipeA, pipeB)

/-- Refcount bookkeeping of `sys_Accept` (socket source lines 179-283) on the
listener SCB `L`, for a call whose entry checks passed (`L` is a LISTENER on
a valid port).  Oracles: `bailInLoop` for the wait loop exiting through the
`PORT_MAP[port]==NULL` check at line 202; `mappedAfter` for the re-check at
line 208; `reqPeer` for the popped request's peer; `newSockOk` for
`sys_Socket` succeeding at line 224.  Returns `none` for `NOFILE` or the
accepted fid, paired with the listener's refcount when the call returns.
The increment happens at line 197; only the success path (line 277)
decrements. -/
def sys_Accept_refcount (L : socket_cb) (bailInLoop mappedAfter : Bool)
    (reqPeer : Option socket_cb) (newSockOk : Bool) (s1fid : Nat) :
    Option Nat × Nat :=
  let r1 := incU32 L.refcount
  if bailInLoop then (none, r1)
  else if mappedAfter = false then (none, r1)
  else
    match reqPeer with
    | none => (none, r1)
    | some p =>
        if p.type ≠ .SOCKET_UNBOUND then (none, r1)
        else if newSockOk = false then (none, r1)
        else (some s1fid, decU32 r1)

/-! ## Thread model (PTCB, kernel_proc.h lines 80-98 and the thread syscalls)

`exited` and `detached` are C `int` flags that the code compares against `1`;
`refcount` is a C `int`.
-/

/-- Per-thread join handle, kernel_proc.h lines 80-98 (the fields the thread
syscalls read and write). -/
structure PTCB where
  exitval : Int
  exited : Nat
  detached : Nat
  refcount : Int
deriving DecidableEq, Repr

/-- The PTCB updates of `sys_ThreadExit(exitval)` (thread source lines
611-624): store the exit value, set `exited = 1`, broadcast `exit_cv`. -/
def sys_ThreadExit_ptcb (v : Int) (p : PTCB) : PTCB :=
  { p with exitval := v, exited := 1 }

/-- Result of `sys_ThreadJoin` past its wait loop: the return value, the value
stored through a non-null `exitval` pointer, whether the PTCB was unlinked and
freed, and its final fields (meaningful when not freed). -/
structure JoinResult where
  ret : Int
  delivered : Option Int
  freed : Bool
  ptcb : PTCB
deriving DecidableEq, Repr

/-- The entry checks and refcount increment of `sys_ThreadJoin` (thread source
lines 526-546): fail when the PTCB is not on the caller's list, is the
caller's own, or is detached; otherwise `refcount++`.  `found` and `self` are
the oracles for `rlist_find` and the self-comparison. -/
def threadJoin_enter (found self : Bool) (p : PTCB) : Option PTCB :=
  if found = false then none
  else if self then none
  else if p.detached = 1 then none
  else some { p with refcount := p.refcount + 1 }

/-- `sys_ThreadJoin` after its wait loop has exited (thread source lines
554-571), applied to the PTCB state at wake (`exited = 1 ∨ detached = 1`):
`refcount--`; if detached return `-1`; otherwise copy `exitval` through a
non-null pointer, and when the refcount reached 0 unlink and free the
PTCB; return `0`. -/
def threadJoin_afterWake (p : PTCB) (outNonNull : Bool) : JoinResult :=
  let p1 : PTCB := { p with refcount := p.refcount - 1 }
  if p1.detached = 1 then ⟨-1, none, false, p1⟩
  else
    let delivered := if outNonNull then some p1.exitval else none
    if p1.refcount = 0 then ⟨0, delivered, true, p1⟩
    else ⟨0, delivered, false, p1⟩

/-! ## Process-exit cleanup model (thread source lines 629-651)

The last-thread branch of `sys_ThreadExit`.  PCBs are identifiers; init is
pid 1.  The state carries, per pid, the `parent` pointer, the
`children_list` and the `exited_list` (front of the Lean list = front of the
`rlnode` ring).  The cleanup returns the new state together with the list of
pids whose `child_exit` condition variable it broadcast, in order.
-/

/-- Per-pid process bookkeeping read by the last-thread cleanup. -/
structure ExitState where
  parent : Nat → Nat
  children : Nat → List Nat
  exited : Nat → List Nat

/-- The reparenting loop (thread source lines 635-639): pop each child off
the dying process's `children_list`, point its `parent` at init's PCB and
push it on the front of init's `children_list`.  Returns the updated parent
map and init's resulting children list. -/
def reparent_loop (cs : List Nat) (par : Nat → Nat) (initCh : List Nat) :
    (Nat → Nat) × List Nat :=
  match cs with
  | [] => (par, initCh)
  | c :: rest =>
      reparent_loop rest (fun i => if i = c then 1 else par i) (c :: initCh)

/-- The pid ≠ 1 branch of the last-thread cleanup (thread source lines
631-651): reparent all children to init; if the dying process has exited
children, append them to init's `exited_list` and broadcast init's
`child_exit`; finally push the dying process on the front of its parent's
`exited_list` and broadcast that parent's `child_exit`.  For pid 1 none of
this runs.  Returns the new state and the pids whose `child_exit` was
broadcast. -/
def thread_exit_cleanup (cur : Nat) (st : ExitState) : ExitState × List Nat :=
  if cur = 1 then (st, [])
  else
    let rp := reparent_loop (st.children cur) st.parent (st.children 1)
    let st1 : ExitState :=
      { parent := rp.1
        children := fun i => if i = 1 then rp.2 else
          if i = cur then [] else st.children i
        exited := st.exited }
    let handover : ExitState × List Nat :=
      if st1.exited cur ≠ [] then
        ({ st1 with exited := fun i => if i = 1 then st1.exited 1 ++ st1.exited cur
            else if i = cur then [] else st1.exited i }, [1])
      else (st1, [])
    let st2 := handover.1
    let par := st2.parent cur
    let st3 : ExitState :=
      { st2 with exited := fun i => if i = par then cur :: st2.exited i
          else st2.exited i }
    (st3, handover.2 ++ [par])

/-! ## Concrete fixtures used by the evaluation theorems and witnesses -/

/-- A connector SCB fresh from `sys_Socket`: `refcount = 0`, UNBOUND. -/
def c1Sock : socket_cb :=
  { refcount := 0, fcb := 3, type := .SOCKET_UNBOUND, port := 0
    peer := none, read_pipe := none, write_pipe := none }

/-- A listener SCB with `refcount = 0`, as left by `sys_Socket` + `sys_Listen`. -/
def c1Listener : socket_cb :=
  { refcount := 0, fcb := 4, type := .SOCKET_LISTENER, port := 42
    peer := none, read_pipe := none, write_pipe := none }

/-- The SCB produced by `sys_Socket_model 1023 5 true 7`. -/
def c2Fresh : socket_cb :=
  { refcount := 0, fcb := 7, type := .SOCKET_UNBOUND, port := 5
    peer := none, read_pipe := none, write_pipe := none }

/-- The SCB produced by `sys_Socket_model 1023 1023 true 7`: port `MAX_PORT`
passes the `sys_Socket` validation. -/
def c3Sock : socket_cb :=
  { refcount := 0, fcb := 7, type := .SOCKET_UNBOUND, port := 1023
    peer := none, read_pipe := none, write_pipe := none }

/-- A full ring for `N = 4`: `(3 + 1) % 4 = 0 = r`, both endpoints open. -/
def c4FullPipe : pipe_cb :=
  { reader := true, writer := true, BUFFER := fun _ => 0
    w_position := 3, r_position := 0, counter := 0 }

/-- A PEER socket holding both pipes. -/
def c10Peer : socket_cb :=
  { refcount := 1, fcb := 7, type := .SOCKET_PEER, port := 0
    peer := some 9, read_pipe := some 20, write_pipe := some 21 }

/-- Process world for the C8 counterexample: process 2 (parent 3, one living
child 4, no exited children) runs its last-thread cleanup. -/
def c8State : ExitState :=
  { parent := fun i => if i = 2 then 3 else 1
    children := fun i => if i = 2 then [4] else []
    exited := fun _ => [] }

/-- Process world for the C8 witness: process 2 (parent 3, living child 4,
exited child 5). -/
def c8WState : ExitState :=
  { parent := fun i => if i = 2 then 3 else 1
    children := fun i => if i = 2 then [4] else []
    exited := fun i => if i = 2 then [5] else [] }

/-! ## Claims -/

/-- Claim C1 (refuted by the code, which contradicts the spec's balance
invariant): `sys_Connect` increments the connector's refcount, then on the
`kernel_timedwait` timeout branch returns `-1` without any decrement — the
refcount on return is `1`, one above its entry value `0`, and no free fired.
Likewise `sys_Accept` increments the listener's refcount and returns `NOFILE`
from its `PORT_MAP`-cleared re-check with the refcount still `1`. -/
theorem C1_refcount_leak_on_timeout :
    sys_Connect_model 1023 c1Sock 42 true false false false =
      ⟨-1, some { c1Sock with refcount := 1 }⟩ ∧
    c1Sock.refcount = 0 ∧
    sys_Accept_refcount c1Listener false false none true 9 = (none, 1) ∧
    c1Listener.refcount = 0 := by
  decide

/-- Claim C2 (refuted by the code, which contradicts the spec's
freed-exactly-once property): a socket fresh from `sys_Socket` has
`refcount = 0`; `socket_close` then executes the `uint` decrement
`refcount--`, which wraps to `2^32 - 1`, so the `refcount == 0` free check
fails and the SCB is never freed. -/
theorem C2_fresh_socket_close_never_frees :
    sys_Socket_model 1023 5 true 7 = some c2Fresh ∧
    (socket_close_model c2Fresh).freed = false ∧
    (socket_close_model c2Fresh).scb.refcount = 4294967295 := by
  decide

/-- Claim C3 (refuted by the code, which contradicts its own array
declaration): with `MAX_PORT = 1023`, `sys_Socket` accepts `port = 1023` and
`sys_Listen`'s checks all pass, after which `sys_Listen` reads and writes
`PORT_MAP[1023]` — one past the end of `socket_cb* PORT_MAP[MAX_PORT]`. -/
theorem C3_listen_port_map_out_of_bounds :
    sys_Socket_model 1023 1023 true 7 = some c3Sock ∧
    sys_Listen_model 1023 c3Sock false = (0, [1023, 1023]) ∧
    ¬ portMapInBounds 1023 1023 := by
  refine ⟨by decide, by decide, ?_⟩
  intro h
  exact absurd h.2 (by decide)

/-- Claim C7: if thread T calls `sys_ThreadExit v` and is never detached,
then a `sys_ThreadJoin` on T that passed its wait loop returns `0`, stores
exactly `v` through a non-null out pointer, and unlinks and frees the PTCB
precisely when its decrement takes the refcount (r at wake) to 0. -/
theorem C7_join_delivers_exit (v : Int) (q : PTCB) (r : Int) (outNN : Bool)
    (hd : q.detached ≠ 1) :
    (threadJoin_afterWake { sys_ThreadExit_ptcb v q with refcount := r } outNN).ret
        = 0 ∧
    (threadJoin_afterWake { sys_ThreadExit_ptcb v q with refcount := r } outNN).delivered
        = (if outNN then some v else none) ∧
    ((threadJoin_afterWake { sys_ThreadExit_ptcb v q with refcount := r } outNN).freed
        = true ↔ r - 1 = 0) ∧
    (sys_ThreadExit_ptcb v q).exited = 1 := by
  by_cases hz : r - 1 = 0 <;>
    simp [threadJoin_afterWake, sys_ThreadExit_ptcb, hd, hz]

/-- Claim C7 witness: a never-detached thread that exits with value 7 and a
joiner whose decrement takes the refcount from 1 to 0. -/
theorem C7_join_delivers_exit_witness :
    (threadJoin_afterWake
        { sys_ThreadExit_ptcb 7 ⟨0, 0, 0, 0⟩ with refcount := 1 } true).ret = 0 ∧
    (threadJoin_afterWake
        { sys_ThreadExit_ptcb 7 ⟨0, 0, 0, 0⟩ with refcount := 1 } true).delivered
        = (if true then some 7 else none) ∧
    ((threadJoin_afterWake
        { sys_ThreadExit_ptcb 7 ⟨0, 0, 0, 0⟩ with refcount := 1 } true).freed
        = true ↔ (1 : Int) - 1 = 0) ∧
    (sys_ThreadExit_ptcb 7 ⟨0, 0, 0, 0⟩).exited = 1 :=
  C7_join_delivers_exit 7 ⟨0, 0, 0, 0⟩ 1 true (by decide)

/-- Claim C9: the admission tail of `sys_Accept` allocates exactly the two
pipes it returns and wires them as the claim states: pipe A has
writer = server FCB and reader = connector FCB, pipe B the reverse; the
connector ends with `read_pipe = A, write_pipe = B`, the server with
`read_pipe = B, write_pipe = A`; both SCBs are PEER and their peer pointers
reference each other; with distinct pipe addresses the two pipe fields of
each SCB are distinct. -/
theorem C9_accept_pipe_wiring (c s : socket_cb) (cId sId aId bId : Nat)
    (hab : aId ≠ bId) :
    (accept_wire c s cId sId aId bId).2.2.1.writer = s.fcb ∧
    (accept_wire c s cId sId aId bId).2.2.1.reader = c.fcb ∧
    (accept_wire c s cId sId aId bId).2.2.2.writer = c.fcb ∧
    (accept_wire c s cId sId aId bId).2.2.2.reader = s.fcb ∧
    (accept_wire c s cId sId aId bId).1.read_pipe = some aId ∧
    (accept_wire c s cId sId aId bId).1.write_pipe = some bId ∧
    (accept_wire c s cId sId aId bId).2.1.read_pipe = some bId ∧
    (accept_wire c s cId sId aId bId).2.1.write_pipe = some aId ∧
    (accept_wire c s cId sId aId bId).1.type = .SOCKET_PEER ∧
    (accept_wire c s cId sId aId bId).2.1.type = .SOCKET_PEER ∧
    (accept_wire c s cId sId aId bId).1.peer = some sId ∧
    (accept_wire c s cId sId aId bId).2.1.peer = some cId ∧
    (accept_wire c s cId sId aId bId).1.read_pipe ≠
      (accept_wire c s cId sId aId bId).1.write_pipe := by
  simp [accept_wire, hab]

/-- Claim C9 witness: concrete connector and server SCBs with distinct pipe
addresses 20 and 21. -/
theorem C9_accept_pipe_wiring_witness :
    (accept_wire c1Sock c2Fresh 10 11 20 21).2.2.1.writer = c2Fresh.fcb ∧
    (accept_wire c1Sock c2Fresh 10 11 20 21).2.2.1.reader = c1Sock.fcb ∧
    (accept_wire c1Sock c2Fresh 10 11 20 21).2.2.2.writer = c1Sock.fcb ∧
    (accept_wire c1Sock c2Fresh 10 11 20 21).2.2.2.reader = c2Fresh.fcb ∧
    (accept_wire c1Sock c2Fresh 10 11 20 21).1.read_pipe = some 20 ∧
    (accept_wire c1Sock c2Fresh 10 11 20 21).1.write_pipe = some 21 ∧
    (accept_wire c1Sock c2Fresh 10 11 20 21).2.1.read_pipe = some 21 ∧
    (accept_wire c1Sock c2Fresh 10 11 20 21).2.1.write_pipe = some 20 ∧
    (accept_wire c1Sock c2Fresh 10 11 20 21).1.type = .SOCKET_PEER ∧
    (accept_wire c1Sock c2Fresh 10 11 20 21).2.1.type = .SOCKET_PEER ∧
    (accept_wire c1Sock c2Fresh 10 11 20 21).1.peer = some 11 ∧
    (accept_wire c1Sock c2Fresh 10 11 20 21).2.1.peer = some 10 ∧
    (accept_wire c1Sock c2Fresh 10 11 20 21).1.read_pipe ≠
      (accept_wire c1Sock c2Fresh 10 11 20 21).1.write_pipe :=
  C9_accept_pipe_wiring c1Sock c2Fresh 10 11 20 21 (by decide)

/-- Claim C10: on a PEER socket, a second `sys_ShutDown` with the same mode
returns 0, leaves the SCB exactly as the first call left it, and closes no
pipe end (the pointer for each affected direction is already NULL). -/
theorem C10_shutdown_idempotent (s : socket_cb) (how : shutdown_mode)
    (h : s.type = .SOCKET_PEER) :
    (sys_ShutDown_model (sys_ShutDown_model s how).scb how).ret = 0 ∧
    (sys_ShutDown_model (sys_ShutDown_model s how).scb how).scb =
      (sys_ShutDown_model s how).scb ∧
    (sys_ShutDown_model (sys_ShutDown_model s how).scb how).readerCloses = [] ∧
    (sys_ShutDown_model (sys_ShutDown_model s how).scb how).writerCloses = [] := by
  cases how <;>
    cases hr : s.read_pipe <;> cases hw : s.write_pipe <;>
      simp [sys_ShutDown_model, h, hr, hw]

/-- Claim C10 witness: a PEER socket holding both pipes, shut down twice with
`SHUTDOWN_BOTH`. -/
theorem C10_shutdown_idempotent_witness :
    (sys_ShutDown_model (sys_ShutDown_model c10Peer .SHUTDOWN_BOTH).scb
        .SHUTDOWN_BOTH).ret = 0 ∧
    (sys_ShutDown_model (sys_ShutDown_model c10Peer .SHUTDOWN_BOTH).scb
        .SHUTDOWN_BOTH).scb = (sys_ShutDown_model c10Peer .SHUTDOWN_BOTH).scb ∧
    (sys_ShutDown_model (sys_ShutDown_model c10Peer .SHUTDOWN_BOTH).scb
        .SHUTDOWN_BOTH).readerCloses = [] ∧
    (sys_ShutDown_model (sys_ShutDown_model c10Peer .SHUTDOWN_BOTH).scb
        .SHUTDOWN_BOTH).writerCloses = [] :=
  C10_shutdown_idempotent c10Peer .SHUTDOWN_BOTH (by decide)

/-- Claim C4 counterexample: with both endpoints open, `pipe_write` with
`n = 0` on a full ring reaches `kernel_wait` (its wait loop tests only
fullness and the reader, never `n`), and `pipe_read` with `n = 0` on an
empty ring reaches `kernel_wait` — neither returns 0 immediately as the
claim states. -/
theorem C4_zero_length_blocks_cex :
    pipe_write_call 4 c4FullPipe (fun _ => 0) 0 = .blocked c4FullPipe ∧
    pipe_read_call 4 (pipe_init fun _ => 0) 0 = .blocked (pipe_init fun _ => 0) := by
  constructor <;> rfl

/-- Claim C4 as amended: `pipe_write` with `n = 0` returns 0 without reaching
`kernel_wait` provided the ring is not full, and `pipe_read` with `n = 0`
returns 0 immediately provided the ring is not empty or the writer is closed;
on a full ring (write) or an empty ring with a live writer (read) the call
blocks regardless of `n`. -/
theorem C4_zero_length_nonblocking (N : Nat) (st su : pipe_cb) (buf : Nat → Nat)
    (hw1 : st.writer = true) (hr1 : st.reader = true)
    (hnf : (st.w_position + 1) % N ≠ st.r_position)
    (hr2 : su.reader = true)
    (hne : su.r_position ≠ su.w_position ∨ su.writer = false) :
    (pipe_write_call N st buf 0).retVal = some 0 ∧
    (pipe_read_call N su 0).retVal = some 0 := by
  constructor
  · have hLoop : writeLoop N st buf 0 0 = (st, 0) := by
      rw [writeLoop.eq_def]
      simp
    simp [pipe_write_call, pipe_write_resume, hw1, hr1, hnf, hLoop, WriteCall.retVal]
  · have hLoop : readLoop N su 0 0 [] = (su, []) := by
      rw [readLoop.eq_def]
      simp
    have hcond : ¬ (su.w_position = su.r_position ∧ su.writer = true) := by
      rcases hne with h | h
      · exact fun hc => h hc.1.symm
      · exact fun hc => by simp [h] at hc
    simp [pipe_read_call, pipe_read_resume, hr2, hcond, hLoop, ReadCall.retVal]

/-- Claim C4 witness: `N = 4`; a fresh pipe (ring not full) accepts the
zero-byte write without blocking, and a pipe holding one byte (`w = 1`,
`r = 0`) answers the zero-byte read immediately. -/
theorem C4_zero_length_nonblocking_witness :
    (pipe_write_call 4 (pipe_init fun _ => 0) (fun _ => 0) 0).retVal = some 0 ∧
    (pipe_read_call 4
        { reader := true, writer := true, BUFFER := fun _ => 0
          w_position := 1, r_position := 0, counter := 0 } 0).retVal = some 0 :=
  C4_zero_length_nonblocking 4 (pipe_init fun _ => 0)
    { reader := true, writer := true, BUFFER := fun _ => 0
      w_position := 1, r_position := 0, counter := 0 }
    (fun _ => 0) rfl rfl (by decide) rfl (by left; decide)

/-- Claim C5: with the writer handle NULL and the ring drained, `pipe_read`
returns 0 (EOF) — both when the close preceded the call (`pipe_read_call`
never blocks then) and when it happened during the wait (`pipe_read_resume`
on the wake state); and with the reader handle NULL, `pipe_write` returns
`-1` — at its entry check, and on resumption after a wait. -/
theorem C5_half_close_returns (N : Nat) (st su : pipe_cb) (buf : Nat → Nat)
    (n m : Nat)
    (hr : st.reader = true) (hw : st.writer = false)
    (hdr : st.r_position = st.w_position)
    (hu : su.reader = false) :
    ((pipe_read_call N st n).retVal = some 0 ∧
      (pipe_read_resume N st n).2 = []) ∧
    ((pipe_write_call N su buf m).retVal = some (-1) ∧
      (pipe_write_resume N su buf m).2 = -1) := by
  have hLoop : readLoop N st n 0 [] = (st, []) := by
    rw [readLoop.eq_def]
    simp [hdr]
  constructor
  · constructor
    · simp [pipe_read_call, pipe_read_resume, hr, hw, hLoop, ReadCall.retVal]
    · simp [pipe_read_resume, hLoop]
  · constructor
    · simp [pipe_write_call, WriteCall.retVal, hu]
    · simp [pipe_write_resume, hu]

/-- Claim C5 witness: `N = 4`; a drained pipe whose writer is closed answers
read with 0, and a pipe whose reader is closed answers write with `-1`. -/
theorem C5_half_close_returns_witness :
    ((pipe_read_call 4
        { reader := true, writer := false, BUFFER := fun _ => 0
          w_position := 2, r_position := 2, counter := 0 } 5).retVal = some 0 ∧
      (pipe_read_resume 4
        { reader := true, writer := false, BUFFER := fun _ => 0
          w_position := 2, r_position := 2, counter := 0 } 5).2 = []) ∧
    ((pipe_write_call 4
        { reader := false, writer := true, BUFFER := fun _ => 0
          w_position := 0, r_position := 0, counter := 0 } (fun _ => 0) 3).retVal
        = some (-1) ∧
      (pipe_write_resume 4
        { reader := false, writer := true, BUFFER := fun _ => 0
          w_position := 0, r_position := 0, counter := 0 } (fun _ => 0) 3).2 = -1) :=
  C5_half_close_returns 4
    { reader := true, writer := false, BUFFER := fun _ => 0
      w_position := 2, r_position := 2, counter := 0 }
    { reader := false, writer := true, BUFFER := fun _ => 0
      w_position := 0, r_position := 0, counter := 0 }
    (fun _ => 0) 5 3 rfl rfl rfl rfl

/-- `writeLoop` never touches `r_position` and keeps `w_position` inside the
ring. -/
theorem writeLoop_pres (N : Nat) :
    ∀ (st : pipe_cb) (buf : Nat → Nat) (n written : Nat),
      st.r_position < N → st.w_position < N →
      (writeLoop N st buf n written).1.r_position = st.r_position ∧
      (writeLoop N st buf n written).1.w_position < N := by
  refine writeLoop.induct N
    (fun st buf n written => st.r_position < N → st.w_position < N →
      (writeLoop N st buf n written).1.r_position = st.r_position ∧
      (writeLoop N st buf n written).1.w_position < N) ?_ ?_
  · intro st buf n written h stp ih hr hw
    rw [writeLoop.eq_def, dif_pos h]
    have hw2 : (if st.w_position + 1 ≥ N then 0 else st.w_position + 1) < N := by
      split <;> omega
    exact ih hr hw2
  · intro st buf n written h hr hw
    rw [writeLoop.eq_def, dif_neg h]
    exact ⟨rfl, hw⟩

/-- `readLoop` never touches `w_position` and keeps `r_position` inside the
ring. -/
theorem readLoop_pres (N : Nat) :
    ∀ (st : pipe_cb) (n byte_num : Nat) (acc : List Nat),
      st.r_position < N → st.w_position < N →
      (readLoop N st n byte_num acc).1.w_position = st.w_position ∧
      (readLoop N st n byte_num acc).1.r_position < N := by
  refine readLoop.induct N
    (fun st n byte_num acc => st.r_position < N → st.w_position < N →
      (readLoop N st n byte_num acc).1.w_position = st.w_position ∧
      (readLoop N st n byte_num acc).1.r_position < N) ?_ ?_
  · intro st n byte_num acc h b stp ih hr hw
    rw [readLoop.eq_def, dif_pos h]
    have hr2 : (if st.r_position + 1 ≥ N then 0 else st.r_position + 1) < N := by
      split <;> omega
    exact ih hr2 hw
  · intro st n byte_num acc h hr hw
    rw [readLoop.eq_def, dif_neg h]
    exact ⟨rfl, hr⟩

/-- One completed `pipe_write` section keeps both ring indices in bounds. -/
theorem pipe_write_resume_bounds (N : Nat) (st : pipe_cb) (buf : Nat → Nat)
    (n : Nat) (hr : st.r_position < N) (hw : st.w_position < N) :
    (pipe_write_resume N st buf n).1.r_position < N ∧
    (pipe_write_resume N st buf n).1.w_position < N := by
  have h := writeLoop_pres N st buf n 0 hr hw
  have h1 := h.1
  have h2 := h.2
  unfold pipe_write_resume
  by_cases hrd : st.reader = false
  · rw [if_pos hrd]
    exact ⟨hr, hw⟩
  · rw [if_neg hrd]
    refine ⟨?_, ?_⟩
    · show (writeLoop N st buf n 0).1.r_position < N
      omega
    · show (writeLoop N st buf n 0).1.w_position < N
      exact h2

/-- One completed `pipe_read` section keeps both ring indices in bounds. -/
theorem pipe_read_resume_bounds (N : Nat) (st : pipe_cb) (n : Nat)
    (hr : st.r_position < N) (hw : st.w_position < N) :
    (pipe_read_resume N st n).1.r_position < N ∧
    (pipe_read_resume N st n).1.w_position < N := by
  have h := readLoop_pres N st n 0 [] hr hw
  have h1 := h.1
  have h2 := h.2
  unfold pipe_read_resume
  refine ⟨?_, ?_⟩
  · show (readLoop N st n 0 []).1.r_position < N
    exact h2
  · show (readLoop N st n 0 []).1.w_position < N
    omega

/-- Claim C6: on every pipe state reachable by `pipe_write` / `pipe_read`
sections from creation — i.e. at every suspension point and every return —
both ring indices lie in `[0, N)`, the ring is empty (no readable byte)
exactly when `r = w`, and it is full (the write loop's guard fails) exactly
when it holds `N - 1` bytes, the one-slot-empty convention. -/
theorem C6_ring_invariant (N : Nat) (st : pipe_cb) (hN : 0 < N)
    (h : PipeReach N st) :
    (st.r_position < N ∧ st.w_position < N) ∧
    (availData N st = 0 ↔ st.r_position = st.w_position) ∧
    ((st.w_position + 1) % N = st.r_position ↔ availData N st = N - 1) := by
  have hb : st.r_position < N ∧ st.w_position < N := by
    induction h with
    | init B => exact ⟨hN, hN⟩
    | write st0 buf n _ ih => exact pipe_write_resume_bounds N st0 buf n ih.1 ih.2
    | read st0 n _ ih => exact pipe_read_resume_bounds N st0 n ih.1 ih.2
  obtain ⟨hr, hw⟩ := hb
  have hav : availData N st =
      if st.r_position ≤ st.w_position then st.w_position - st.r_position
      else st.w_position + N - st.r_position := by
    unfold availData
    rcases le_or_lt st.r_position st.w_position with hle | hlt
    · rw [if_pos hle]
      have h1 : st.w_position + N - st.r_position =
          (st.w_position - st.r_position) + N := by omega
      rw [h1, Nat.add_mod_right]
      exact Nat.mod_eq_of_lt (by omega)
    · rw [if_neg (by omega)]
      exact Nat.mod_eq_of_lt (by omega)
  have hmod : (st.w_position + 1) % N =
      if st.w_position + 1 = N then 0 else st.w_position + 1 := by
    rcases eq_or_ne (st.w_position + 1) N with he | hne
    · rw [if_pos he, he, Nat.mod_self]
    · rw [if_neg hne]
      exact Nat.mod_eq_of_lt (by omega)
  refine ⟨⟨hr, hw⟩, ?_, ?_⟩
  · rw [hav]
    split <;> omega
  · rw [hav, hmod]
    split <;> split <;> omega

/-- Claim C6 witness: `N = 4` and the freshly created pipe, which is
reachable by the empty sequence. -/
theorem C6_ring_invariant_witness :
    ((pipe_init fun _ => 0).r_position < 4 ∧ (pipe_init fun _ => 0).w_position < 4) ∧
    (availData 4 (pipe_init fun _ => 0) = 0 ↔
      (pipe_init fun _ => 0).r_position = (pipe_init fun _ => 0).w_position) ∧
    (((pipe_init fun _ => 0).w_position + 1) % 4 = (pipe_init fun _ => 0).r_position ↔
      availData 4 (pipe_init fun _ => 0) = 4 - 1) :=
  C6_ring_invariant 4 (pipe_init fun _ => 0) (by decide) (PipeReach.init _)

/-- A pid already mapped to init stays so through the reparenting loop. -/
theorem reparent_keep (cs : List Nat) (par : Nat → Nat) (ic : List Nat)
    (c : Nat) (h : par c = 1) : (reparent_loop cs par ic).1 c = 1 := by
  induction cs generalizing par ic with
  | nil => exact h
  | cons a rest ih =>
      exact ih _ _ (by by_cases hca : c = a <;> simp [hca, h])

/-- Every pid popped by the reparenting loop ends with parent = init. -/
theorem reparent_parent_mem (cs : List Nat) (par : Nat → Nat) (ic : List Nat)
    (c : Nat) (h : c ∈ cs) : (reparent_loop cs par ic).1 c = 1 := by
  induction cs generalizing par ic with
  | nil => cases h
  | cons a rest ih =>
      rcases List.mem_cons.mp h with rfl | h2
      · exact reparent_keep rest _ _ c (by simp)
      · exact ih _ _ h2

/-- The reparenting loop only grows init's children list. -/
theorem reparent_acc (cs : List Nat) (par : Nat → Nat) (ic : List Nat)
    (c : Nat) (h : c ∈ ic) : c ∈ (reparent_loop cs par ic).2 := by
  induction cs generalizing par ic with
  | nil => exact h
  | cons a rest ih => exact ih _ _ (List.mem_cons_of_mem a h)

/-- Every pid popped by the reparenting loop lands on init's children list. -/
theorem reparent_child_mem (cs : List Nat) (par : Nat → Nat) (ic : List Nat)
    (c : Nat) (h : c ∈ cs) : c ∈ (reparent_loop cs par ic).2 := by
  induction cs generalizing par ic with
  | nil => cases h
  | cons a rest ih =>
      rcases List.mem_cons.mp h with rfl | h2
      · exact reparent_acc rest _ _ c (List.mem_cons_self c ic)
      · exact ih _ _ h2

/-- Pids not on the popped list keep their parent pointer. -/
theorem reparent_not_mem (cs : List Nat) (par : Nat → Nat) (ic : List Nat)
    (c : Nat) (h : c ∉ cs) : (reparent_loop cs par ic).1 c = par c := by
  induction cs generalizing par ic with
  | nil => rfl
  | cons a rest ih =>
      have hca : c ≠ a := fun hc => h (hc ▸ List.mem_cons_self a rest)
      have h2 : c ∉ rest := fun hc => h (List.mem_cons_of_mem a hc)
      simp only [reparent_loop]
      rw [ih _ _ h2]
      simp [hca]

/-- Claim C8 counterexample: process 2 (parent 3 ≠ init, one living child 4,
no exited children) runs its last-thread cleanup; child 4 is reparented to
init and pushed on init's children list, but the only `child_exit` broadcast
goes to pid 3 — init's `child_exit` is not broadcast, contradicting the
claim. -/
theorem C8_no_init_broadcast_cex :
    (thread_exit_cleanup 2 c8State).1.parent 4 = 1 ∧
    4 ∈ (thread_exit_cleanup 2 c8State).1.children 1 ∧
    (thread_exit_cleanup 2 c8State).2 = [3] ∧
    ¬ 1 ∈ (thread_exit_cleanup 2 c8State).2 := by
  decide

/-- Claim C8 as amended: after the last-thread cleanup of a non-init process,
every living child's parent pointer is init (pid 1) and the child is on
init's children list; the `child_exit` broadcasts are exactly one to init
when the dying process had exited children to hand over, followed by one to
the dying process's parent (which is init only when that parent is pid 1). -/
theorem C8_reparenting_amended (cur c : Nat) (st : ExitState) (hc : cur ≠ 1)
    (hself : cur ∉ st.children cur) (hmem : c ∈ st.children cur) :
    (thread_exit_cleanup cur st).1.parent c = 1 ∧
    c ∈ (thread_exit_cleanup cur st).1.children 1 ∧
    (thread_exit_cleanup cur st).2 =
      (if st.exited cur = [] then [] else [1]) ++ [st.parent cur] := by
  have hpar := reparent_not_mem (st.children cur) st.parent (st.children 1) cur hself
  have h1 := reparent_parent_mem (st.children cur) st.parent (st.children 1) c hmem
  have h2 := reparent_child_mem (st.children cur) st.parent (st.children 1) c hmem
  by_cases hex : st.exited cur = [] <;>
    simp [thread_exit_cleanup, hc, hex, hpar, h1, h2]

/-- Claim C8 witness: process 2 (parent 3, living child 4, exited child 5);
the cleanup reparents 4 to init and broadcasts first init's `child_exit`
(for the handover) and then pid 3's. -/
theorem C8_reparenting_amended_witness :
    (thread_exit_cleanup 2 c8WState).1.parent 4 = 1 ∧
    4 ∈ (thread_exit_cleanup 2 c8WState).1.children 1 ∧
    (thread_exit_cleanup 2 c8WState).2 =
      (if c8WState.exited 2 = [] then [] else [1]) ++ [c8WState.parent 2] :=
  C8_reparenting_amended 2 4 c8WState (by decide) (by decide) (by decide)
